import Mathlib

/-!
Verification development for the image viewer application
(`appImageViewer1O.py` and `appImageViewer2O.py`).

The `MainWindow` object keeps one image in three parallel representations:
a display pixmap (`QPixmap`), a pixel-access image (`QImage`) and a numpy
array (`npImage`), plus a one-slot undo buffer (`prevPixmap`).  We embed
this state shallowly:

* a `QImage`/`QPixmap` is a list of rows of pixels (`QImg`); the Qt
  conversions `QPixmap.toImage` / `QPixmap.fromImage` are the identity on
  pixel content, and a null pixmap/image is the empty list (width or
  height 0);
* a numpy array (`NpImg`) is either the size-0 `np.array([])`, a
  2-dimensional gray array, or a 3-dimensional array whose innermost
  lists are the channel values (BGR or BGRA order, as in OpenCV);
* the view transform is always a power of `scaleUpFactor`, so it is
  embedded as the integer exponent `viewTransform`;
* the repository files `files/myImageTools.py` (functions `qimage2np`,
  `np2qimage`) and the dialog classes are not part of the sources at
  hand, and the numeric kernels (Sobel, filter2D, threshold, resize,
  Canny/Hough, cornerHarris) are floating-point calls into the external
  vision library; the conversions are modelled from the spec below, and
  each numeric kernel result is a parameter of the operation that uses
  it, while all state plumbing is translated from the source.
-/

/-- One pixel of a `QImage`/`QPixmap` (red, green, blue, alpha). -/
structure Px where
  r : Nat
  g : Nat
  b : Nat
  a : Nat
deriving DecidableEq, Repr

/-- A `QImage` or `QPixmap`: a list of rows of pixels.  The null
pixmap/image of Qt is the empty list. -/
abbrev QImg := List (List Px)

/-- Height of an image (number of rows). -/
def imgHeight (im : QImg) : Nat := im.length

/-- Width of an image (length of its first row; 0 for the null image). -/
def imgWidth (im : QImg) : Nat := (im.headD []).length

/-- Model of `QPixmap.isNull` / `QImage.isNull`: an image with no rows or
no columns. -/
def imgIsNull (im : QImg) : Bool := imgHeight im == 0 || imgWidth im == 0

/-- Model of `QImage.allGray()`: every pixel has equal red, green and blue
components. -/
def allGrayB (im : QImg) : Bool :=
  im.all (fun row => row.all (fun p => p.r == p.g && p.g == p.b))

/-- The numpy array `self.npImage`: the size-0 `np.array([])`, a
2-dimensional gray-scale array, or a 3-dimensional array of
channel lists (BGR / BGRA channel order). -/
inductive NpImg where
  | empty : NpImg
  | gray2d : List (List Nat) → NpImg
  | color3d : List (List (List Nat)) → NpImg
deriving DecidableEq, Repr

/-- Number of rows (`shape[0]`). -/
def npRows : NpImg → Nat
  | NpImg.empty => 0
  | NpImg.gray2d G => G.length
  | NpImg.color3d A => A.length

/-- Number of columns (`shape[1]`; 0 for the size-0 array, whose shape is
one-dimensional). -/
def npCols : NpImg → Nat
  | NpImg.empty => 0
  | NpImg.gray2d G => (G.headD []).length
  | NpImg.color3d A => (A.headD []).length

/-- Number of channels (`shape[2]` of a 3-dimensional array; 0 otherwise). -/
def npChannels : NpImg → Nat
  | NpImg.color3d A => ((A.headD []).headD []).length
  | _ => 0

/-- Number of dimensions of the array (`len(shape)`); `np.array([])` is
one-dimensional. -/
def npNdim : NpImg → Nat
  | NpImg.empty => 1
  | NpImg.gray2d _ => 2
  | NpImg.color3d _ => 3

/-- Total number of scalar entries (`size`). -/
def npSize : NpImg → Nat
  | NpImg.empty => 0
  | NpImg.gray2d G => G.foldr (fun r acc => r.length + acc) 0
  | NpImg.color3d A =>
      A.foldr (fun r acc => r.foldr (fun ch acc2 => ch.length + acc2) 0 + acc) 0

/-- Larger of the first two shape entries (`max(shape[:2])`). -/
def npMaxDim (B : NpImg) : Nat := max (npRows B) (npCols B)

/-- Modelled from the spec: the fixed-point luma map used by the vision
library for BGR-to-gray conversion (`cv2.cvtColor` with `COLOR_BGR2GRAY`),
`gray = (4899 R + 9617 G + 1868 B + 8192) >> 14`. -/
def luma (b g r : Nat) : Nat := (4899 * r + 9617 * g + 1868 * b + 8192) / 16384

/-- Modelled from the spec: `cv2.cvtColor(A, cv2.COLOR_BGR2GRAY)` on a
3-channel BGR array. -/
def cvtColorBGR2GRAY (A : List (List (List Nat))) : List (List Nat) :=
  A.map (fun row => row.map (fun ch => luma (ch.getD 0 0) (ch.getD 1 0) (ch.getD 2 0)))

/-- Modelled from the spec: `cv2.cvtColor(A, cv2.COLOR_BGRA2GRAY)` on a
4-channel BGRA array (the alpha channel is ignored). -/
def cvtColorBGRA2GRAY (A : List (List (List Nat))) : List (List Nat) :=
  A.map (fun row => row.map (fun ch => luma (ch.getD 0 0) (ch.getD 1 0) (ch.getD 2 0)))

/-- Conversion of one channel list (BGR or BGRA) to a `Px`; other channel
counts are not representable as a `QImage` pixel. -/
def chToPx : List Nat → Px
  | [b, g, r] => ⟨r, g, b, 255⟩
  | [b, g, r, a] => ⟨r, g, b, a⟩
  | _ => ⟨0, 0, 0, 0⟩

/-- Uniform-channel guard of the numpy-to-QImage conversion: a
3-dimensional array is convertible when all its pixels have the same
channel count, which is 3 or 4. -/
def chGuard (A : List (List (List Nat))) : Bool :=
  (npChannels (NpImg.color3d A) == 3 || npChannels (NpImg.color3d A) == 4) &&
    A.all (fun row => row.all (fun ch => ch.length == npChannels (NpImg.color3d A)))

/-- Modelled from the spec: `np2qimage` of the missing repository file
`files/myImageTools.py` — convert a numpy array into a `QImage`; a gray
value `v` becomes the pixel `(v,v,v,255)`, a BGR(A) channel list becomes
the corresponding pixel, and an unconvertible array gives the null
image. -/
def np2qimage : NpImg → QImg
  | NpImg.empty => []
  | NpImg.gray2d G => G.map (fun row => row.map (fun v => ⟨v, v, v, 255⟩))
  | NpImg.color3d A =>
      if chGuard A then A.map (fun row => row.map chToPx) else []

/-- Modelled from the spec: `qimage2np` of the missing repository file
`files/myImageTools.py` — convert a `QImage` into a 3-dimensional numpy
array of BGRA channel lists (the byte view of a 32-bit image). -/
def qimage2np (im : QImg) : NpImg :=
  NpImg.color3d (im.map (fun row => row.map (fun p => [p.b, p.g, p.r, p.a])))

/-- Pixel-level agreement of a `QImage` pixel with a numpy channel list:
the channel list is the BGR (or BGRA) view of the pixel. -/
def pxMatch : Px → List Nat → Bool
  | p, [b, g, r] => p.b == b && p.g == g && p.r == r
  | p, [b, g, r, a] => p.b == b && p.g == g && p.r == r && p.a == a
  | _, _ => false

/-- Row-wise agreement of an image row with a row of a 3-dimensional
array (same length, matching pixels). -/
def colorRowMatch : List Px → List (List Nat) → Bool
  | [], [] => true
  | p :: ps, ch :: chs => pxMatch p ch && colorRowMatch ps chs
  | _, _ => false

/-- Agreement of an image with a 3-dimensional array (same height, rows
matching). -/
def colorMatch : QImg → List (List (List Nat)) → Bool
  | [], [] => true
  | row :: rows, arow :: arows => colorRowMatch row arow && colorMatch rows arows
  | _, _ => false

/-- Row-wise agreement of an image row with a row of a gray 2-dimensional
array: each pixel is the gray value on all three color components. -/
def grayRowMatch : List Px → List Nat → Bool
  | [], [] => true
  | p :: ps, v :: vs => p.r == v && p.g == v && p.b == v && grayRowMatch ps vs
  | _, _ => false

/-- Agreement of an image with a gray 2-dimensional array. -/
def grayMatch : QImg → List (List Nat) → Bool
  | [], [] => true
  | row :: rows, grow :: grows => grayRowMatch row grow && grayMatch rows grows
  | _, _ => false

/-- The numpy array depicts the same image as the `QImage`: equal width
and height, and equal pixel content up to the fixed pixmap/QImage/numpy
conversion. -/
def npMatches (im : QImg) (np : NpImg) : Bool :=
  match np with
  | NpImg.empty => im.isEmpty
  | NpImg.gray2d G => grayMatch im G
  | NpImg.color3d A => colorMatch im A

/-- The state of `MainWindow` that the claims are about: the three image
representations, the one-slot undo buffer, the cached `isAllGray` flag,
the crop mode flag, and the view transform (embedded as the exponent of
`scaleUpFactor`, since the transform is always a power of it). -/
structure AppState where
  pixmap : QImg
  prevPixmap : QImg
  image : QImg
  npImage : NpImg
  isAllGray : Bool
  cropActive : Bool
  viewTransform : Int
deriving DecidableEq, Repr

/-- The three representations held by `MainWindow` depict the same image:
`pixmap` and `image` are equal (the pixmap/QImage conversion is the
identity on pixel content) and `npImage` matches them up to the fixed
QImage/numpy conversion. -/
def inSync (s : AppState) : Bool :=
  s.pixmap == s.image && npMatches s.image s.npImage

/-- Value computed by `setIsAllGray()`: `False` for a null image, else
`QImage.allGray()`. -/
def setIsAllGrayVal (im : QImg) : Bool :=
  if imgIsNull im then false else allGrayB im

/-- The numpy array computed by `pixmap2image2np` from the current image:
`qimage2np` of the image, collapsed to its first channel when the image
is all gray (the result of `qimage2np` is always 3-dimensional). -/
def rebuildNp (im : QImg) : NpImg :=
  if setIsAllGrayVal im then NpImg.gray2d (im.map (fun row => row.map Px.b))
  else qimage2np im

/-- `MainWindow.scaleOne`: reset the view transform to the identity if a
pixmap is present. -/
def scaleOne (s : AppState) : AppState :=
  if imgIsNull s.pixmap then s else { s with viewTransform := 0 }

/-- `MainWindow.scaleUp`: scale the view by `scaleUpFactor` if a pixmap is
present. -/
def scaleUp (s : AppState) : AppState :=
  if imgIsNull s.pixmap then s else { s with viewTransform := s.viewTransform + 1 }

/-- `MainWindow.scaleDown`: scale the view by `1/scaleUpFactor` if a
pixmap is present. -/
def scaleDown (s : AppState) : AppState :=
  if imgIsNull s.pixmap then s else { s with viewTransform := s.viewTransform - 1 }

/-- `MainWindow.pixmap2image2np`: copy the current pixmap into
`self.image` and `self.npImage` (collapsing an all-gray 3-dimensional
array to one channel) and reset the view scale (`scaleOne`). -/
def pixmap2image2np (s : AppState) : AppState :=
  scaleOne { s with
    image := s.pixmap,
    isAllGray := setIsAllGrayVal s.pixmap,
    npImage := rebuildNp s.pixmap }

/-- `MainWindow.np2image2pixmap`: copy the numpy array `B` into
`self.image` and (when the conversion succeeds) `self.pixmap`; when
`numpyAlso` is true also into `self.npImage`; finally recompute
`isAllGray`. -/
def np2image2pixmap (B : NpImg) (numpyAlso : Bool) (s : AppState) : AppState :=
  let image := np2qimage B
  { s with
    image := image,
    pixmap := if imgIsNull image then s.pixmap else image,
    npImage := if numpyAlso then B else s.npImage,
    isAllGray := setIsAllGrayVal image }

/-- `MainWindow.undoLast`: when the previous pixmap is non-null, swap the
current and previous pixmaps and rebuild image and numpy array from the
restored pixmap. -/
def undoLast (s : AppState) : AppState :=
  if 0 < imgWidth s.prevPixmap ∧ 0 < imgHeight s.prevPixmap then
    pixmap2image2np { s with pixmap := s.prevPixmap, prevPixmap := s.pixmap }
  else s

/-- `MainWindow.toGray`: on a 3-dimensional array with at least 3
channels, save the pixmap, convert to gray with the vision library and
commit; a channel count above 4 leaves the local variable `B` unbound in
the Python code (a crash, embedded as `none`); otherwise do nothing. -/
def toGray (s : AppState) : Option AppState :=
  match s.npImage with
  | NpImg.color3d A =>
      let c := ((A.headD []).headD []).length
      if 3 ≤ c then
        let s1 := { s with prevPixmap := s.pixmap }
        if c = 3 then
          some (np2image2pixmap (NpImg.gray2d (cvtColorBGR2GRAY A)) true s1)
        else if c = 4 then
          some (np2image2pixmap (NpImg.gray2d (cvtColorBGRA2GRAY A)) true s1)
        else none
      else some s
  | _ => some s

/-- The normalized rubber-band rectangle passed to `cropEnd` (scene
coordinates may be negative, width and height are nonnegative after
`QRect.normalized()`). -/
structure CropRect where
  x : Int
  y : Int
  w : Nat
  h : Nat
deriving DecidableEq, Repr

/-- Pixel of an image at integer scene coordinates; out-of-range
coordinates give the zero pixel. -/
def pxAtI (im : QImg) (y x : Int) : Px :=
  if 0 ≤ y ∧ 0 ≤ x then (im.getD y.toNat []).getD x.toNat ⟨0, 0, 0, 0⟩
  else ⟨0, 0, 0, 0⟩

/-- Model of `QPixmap.copy(x, y, w, h)`: the `w` by `h` rectangle of the
pixmap at offset `(x, y)`; areas outside the source are zero pixels. -/
def copyRect (im : QImg) (r : CropRect) : QImg :=
  (List.range r.h).map (fun (j : Nat) =>
    (List.range r.w).map (fun (i : Nat) =>
      pxAtI im (r.y + Int.ofNat j) (r.x + Int.ofNat i)))

/-- Hidden small-rectangle branch of `cropEnd` on a gray 2-dimensional
array: count the leading and trailing all-zero columns and rows, then (if
something was counted and the remaining size is positive) commit the
slice `A[top:top+w, left:left+w]` of the array — exactly as the source
writes it, with `w` in both slots.  A nonempty array with empty rows
makes `A[row,:].max()` raise in numpy, embedded as `none`. -/
def blackFrameGray (G : List (List Nat)) (s : AppState) : Option AppState :=
  let rows := G.length
  let cols := (G.headD []).length
  if rows = 0 then some s
  else if cols = 0 then none
  else
    let colBlack : Nat → Bool := fun c => G.all (fun row => row.getD c 0 == 0)
    let rowBlack : List Nat → Bool := fun row => row.all (fun v => v == 0)
    let left := ((List.range cols).takeWhile colBlack).length
    let right := ((List.range cols).reverse.takeWhile colBlack).length
    let top := (G.takeWhile rowBlack).length
    let bottom := (G.reverse.takeWhile rowBlack).length
    let wI : Int := (cols : Int) - left - right
    let hI : Int := (rows : Int) - top - bottom
    if max (max left right) (max top bottom) = 0 then some s
    else if wI ≤ 0 ∨ hI ≤ 0 then some s
    else
      let B := NpImg.gray2d
        (((G.drop top).take wI.toNat).map (fun row => (row.drop left).take wI.toNat))
      some (np2image2pixmap B true { s with prevPixmap := s.pixmap })

/-- Hidden small-rectangle branch of `cropEnd` on a color array with at
least 3 channels: a column or row is black when channels 0, 1 and 2 are
all zero there; the committed slice is `A[top:top+w, left:left+w, :]`,
again with `w` in both slots as in the source. -/
def blackFrameColor (A : List (List (List Nat))) (s : AppState) : Option AppState :=
  let rows := A.length
  let cols := (A.headD []).length
  if rows = 0 then some s
  else if cols = 0 then none
  else
    let chBlack : List Nat → Bool := fun ch =>
      ch.getD 0 0 == 0 && ch.getD 1 0 == 0 && ch.getD 2 0 == 0
    let colBlack : Nat → Bool := fun c => A.all (fun row => chBlack (row.getD c []))
    let rowBlack : List (List Nat) → Bool := fun row => row.all chBlack
    let left := ((List.range cols).takeWhile colBlack).length
    let right := ((List.range cols).reverse.takeWhile colBlack).length
    let top := (A.takeWhile rowBlack).length
    let bottom := (A.reverse.takeWhile rowBlack).length
    let wI : Int := (cols : Int) - left - right
    let hI : Int := (rows : Int) - top - bottom
    if max (max left right) (max top bottom) = 0 then some s
    else if wI ≤ 0 ∨ hI ≤ 0 then some s
    else
      let B := NpImg.color3d
        (((A.drop top).take wI.toNat).map (fun row => (row.drop left).take wI.toNat))
      some (np2image2pixmap B true { s with prevPixmap := s.pixmap })

/-- Hidden small-rectangle branch of `cropEnd` on a 3-dimensional array
with fewer than 3 channels (the source falls into its gray-scale branch
and takes the maximum over whole 2-dimensional slices). -/
def blackFrameGray3d (A : List (List (List Nat))) (s : AppState) : Option AppState :=
  let rows := A.length
  let cols := (A.headD []).length
  let c := ((A.headD []).headD []).length
  if rows = 0 then some s
  else if cols = 0 ∨ c = 0 then none
  else
    let chBlack : List Nat → Bool := fun ch => ch.all (fun v => v == 0)
    let colBlack : Nat → Bool := fun cc => A.all (fun row => chBlack (row.getD cc []))
    let rowBlack : List (List Nat) → Bool := fun row => row.all chBlack
    let left := ((List.range cols).takeWhile colBlack).length
    let right := ((List.range cols).reverse.takeWhile colBlack).length
    let top := (A.takeWhile rowBlack).length
    let bottom := (A.reverse.takeWhile rowBlack).length
    let wI : Int := (cols : Int) - left - right
    let hI : Int := (rows : Int) - top - bottom
    if max (max left right) (max top bottom) = 0 then some s
    else if wI ≤ 0 ∨ hI ≤ 0 then some s
    else
      let B := NpImg.color3d
        (((A.drop top).take wI.toNat).map (fun row => (row.drop left).take wI.toNat))
      some (np2image2pixmap B true { s with prevPixmap := s.pixmap })

/-- `MainWindow.cropEnd`: a no-op when crop mode is off; with a rectangle
wider and taller than 5 it commits a pixmap copy of that rectangle and
saves the pre-crop pixmap; a small rectangle triggers the hidden
black-frame cut.  `none` embeds the numpy exceptions of the small branch
(the size-0 array has no `shape[1]`). -/
def cropEnd (r : CropRect) (s : AppState) : Option AppState :=
  if !s.cropActive then some s
  else
    let s0 := { s with cropActive := false }
    if 5 < r.w ∧ 5 < r.h then
      some (pixmap2image2np
        { s0 with prevPixmap := s0.pixmap, pixmap := copyRect s0.pixmap r })
    else
      match s0.npImage with
      | NpImg.empty => none
      | NpImg.gray2d G => blackFrameGray G s0
      | NpImg.color3d A =>
          if 3 ≤ ((A.headD []).headD []).length then blackFrameColor A s0
          else blackFrameGray3d A s0

/-- `MainWindow.tryEdges`: preview of the edge pipeline from the edge
dialog.  The Sobel/smooth/normalize computation is a floating-point call
into the vision library; its resulting uint8 array is the parameter `B`.
The preview is displayed without updating `self.npImage`
(`numpyAlso=False`). -/
def tryEdges (B : NpImg) (s : AppState) : AppState :=
  np2image2pixmap B false s

/-- `MainWindow.tryFilter`: preview of the filter pipeline (parameter `B`
is the array computed by the vision library); `self.npImage` is not
updated. -/
def tryFilter (B : NpImg) (s : AppState) : AppState :=
  np2image2pixmap B false s

/-- `MainWindow.tryBinary`: preview of the thresholded image (parameter
`B` is the array computed by `cv2.threshold`); `self.npImage` is not
updated. -/
def tryBinary (B : NpImg) (s : AppState) : AppState :=
  np2image2pixmap B false s

/-- `MainWindow.toEdges`: save the pixmap in `prevPixmap`, run the edge
dialog (during which `tryEdges` may display any number of previews,
listed in `previews`), then either commit the dialog result (`some B`) or
restore the saved pixmap, rebuild image and numpy array from it, and put
back the old `prevPixmap` (`none`, Cancel). -/
def toEdges (previews : List NpImg) (result : Option NpImg) (s : AppState) : AppState :=
  let oldPixmap := s.prevPixmap
  let s1 := { s with prevPixmap := s.pixmap }
  let s2 := previews.foldl (fun st B => tryEdges B st) s1
  match result with
  | some B => np2image2pixmap B true s2
  | none =>
      let s3 := pixmap2image2np { s2 with pixmap := s2.prevPixmap }
      { s3 with prevPixmap := oldPixmap }

/-- `MainWindow.filterImage`: same plumbing as `toEdges` with the filter
dialog and `tryFilter` previews. -/
def filterImage (previews : List NpImg) (result : Option NpImg) (s : AppState) : AppState :=
  let oldPixmap := s.prevPixmap
  let s1 := { s with prevPixmap := s.pixmap }
  let s2 := previews.foldl (fun st B => tryFilter B st) s1
  match result with
  | some B => np2image2pixmap B true s2
  | none =>
      let s3 := pixmap2image2np { s2 with pixmap := s2.prevPixmap }
      { s3 with prevPixmap := oldPixmap }

/-- `MainWindow.toBinary`: same plumbing as `toEdges` with the threshold
dialog and `tryBinary` previews. -/
def toBinary (previews : List NpImg) (result : Option NpImg) (s : AppState) : AppState :=
  let oldPixmap := s.prevPixmap
  let s1 := { s with prevPixmap := s.pixmap }
  let s2 := previews.foldl (fun st B => tryBinary B st) s1
  match result with
  | some B => np2image2pixmap B true s2
  | none =>
      let s3 := pixmap2image2np { s2 with pixmap := s2.prevPixmap }
      { s3 with prevPixmap := oldPixmap }

/-- `MainWindow.resizeImage`: save the pixmap in `prevPixmap`, run the
resize dialog (no previews), then either commit the resized array
(`some B`, the result of `cv2.resize`) or restore the old `prevPixmap`
(Cancel leaves everything else untouched). -/
def resizeImage (result : Option NpImg) (s : AppState) : AppState :=
  let oldPixmap := s.prevPixmap
  let s1 := { s with prevPixmap := s.pixmap }
  match result with
  | some B => np2image2pixmap B true s1
  | none => { s1 with prevPixmap := oldPixmap }

/-- Model of `cv2.line` / `cv2.circle` painting with the BGR color
`(0, 0, 255)` (red): the painted pixels keep their channel count (a
4-channel pixel gets alpha 0, as the scalar is zero-extended). -/
def paintRed (ch : List Nat) : List Nat :=
  if ch.length = 4 then [0, 0, 255, 0] else [0, 0, 255]

/-- Paint the pixels selected by `mask` red in one row. -/
def overlayRow : List Bool → List (List Nat) → List (List Nat)
  | _, [] => []
  | [], row => row
  | m :: ms, ch :: chs => (if m then paintRed ch else ch) :: overlayRow ms chs

/-- Paint the pixels selected by `mask` red in the whole array; the mask
abstracts the geometry of the red shapes the vision library draws
(`cv2.line` for Hough lines, `cv2.circle` for Harris corners). -/
def overlayMask : List (List Bool) → List (List (List Nat)) → List (List (List Nat))
  | _, [] => []
  | [], A => A
  | m :: ms, row :: rows => overlayRow m row :: overlayMask ms rows

/-- `MainWindow.drawlines`: convert the current numpy image to gray, back
to BGR, paint the detected Hough lines red (geometry abstracted as
`mask`), and display the result WITHOUT updating `self.npImage`
(`numpyAlso=False` in the source).  `cv2.cvtColor` needs at least 3
channels; other inputs raise, embedded as `none`. -/
def drawlines (mask : List (List Bool)) (s : AppState) : Option AppState :=
  match s.npImage with
  | NpImg.color3d A =>
      if 3 ≤ ((A.headD []).headD []).length then
        let gray := cvtColorBGR2GRAY A
        let imgBgr := gray.map (fun row => row.map (fun v => [v, v, v]))
        some (np2image2pixmap (NpImg.color3d (overlayMask mask imgBgr)) false s)
      else none
  | _ => none

/-- Array held in `self.npImage` at the end of `detectCornersHarris`: a
gray 2-dimensional array is first converted to BGR in place, then the
detected corners are painted red (geometry abstracted as `mask`). -/
def harrisDrawn (mask : List (List Bool)) : NpImg → NpImg
  | NpImg.gray2d G =>
      NpImg.color3d (overlayMask mask (G.map (fun row => row.map (fun v => [v, v, v]))))
  | NpImg.color3d A => NpImg.color3d (overlayMask mask A)
  | NpImg.empty => NpImg.empty

/-- True when the (possibly resized) array has a shape the Harris
pipeline can process without raising: a gray 2-dimensional array, or a
3-dimensional one with 3 or 4 channels. -/
def harrisOK : NpImg → Bool
  | NpImg.gray2d _ => true
  | NpImg.color3d A =>
      3 ≤ ((A.headD []).headD []).length && ((A.headD []).headD []).length ≤ 4
  | NpImg.empty => false

/-- Array held by `self.npImage` after the optional performance resize
of `detectCornersHarris` (the `cv2.resize` result is the parameter
`resized`, used when the larger image dimension exceeds 1000). -/
def harrisA1 (resized : NpImg) (s : AppState) : NpImg :=
  if 1000 < npMaxDim s.npImage then resized else s.npImage

/-- `MainWindow.detectCornersHarris`: possibly downscale `self.npImage`
(the `cv2.resize` result is the parameter `resized`), convert a gray
2-dimensional array to BGR in place, paint the detected corners red, and
display `self.npImage` itself via
`np2image2pixmap(self.npImage, numpyAlso=False)` — the array shown IS the
current numpy array.  All exceptions are swallowed by the surrounding
`try` (an invalid channel count leaves only the resize assignment
behind, a size-0 array fails before any assignment). -/
def detectCornersHarris (resized : NpImg) (mask : List (List Bool)) (s : AppState) : AppState :=
  match s.npImage with
  | NpImg.empty => s
  | _ =>
    match harrisA1 resized s with
    | NpImg.gray2d G =>
        let A3 := harrisDrawn mask (NpImg.gray2d G)
        np2image2pixmap A3 false { s with npImage := A3 }
    | NpImg.color3d A =>
        if 3 ≤ ((A.headD []).headD []).length ∧ ((A.headD []).headD []).length ≤ 4 then
          let A3 := harrisDrawn mask (NpImg.color3d A)
          np2image2pixmap A3 false { s with npImage := A3 }
        else { s with npImage := NpImg.color3d A }
    | NpImg.empty => { s with npImage := NpImg.empty }

/-- Visible effect of one vendor-SDK interaction, recorded in the event
trace of the camera model (`appImageViewer2O.py`). -/
inductive CamEvent where
  | sdkInit : CamEvent
  | sdkConfig : CamEvent
  | sdkQuery : CamEvent
  | sdkCapture : CamEvent
  | sdkExit : CamEvent
deriving DecidableEq, Repr

/-- Outcome of `freeze_video` + `is_WaitForNextImage`: failure, or a raw
frame from camera memory (a 3-dimensional pixel array). -/
inductive CaptureRes where
  | fail : CaptureRes
  | frame : List (List (List Nat)) → CaptureRes
deriving DecidableEq, Repr

/-- State of the camera-extended `MainWindow` of `appImageViewer2O.py`:
the inherited image state, the module constant `ueyeOK` (vendor SDK
importable), the `camOn` flag, and a count of SDK initializations. -/
structure Cam2State where
  app : AppState
  ueyeOK : Bool
  camOn : Bool
  initCount : Nat
deriving DecidableEq, Repr

/-- `MainWindow.copy_image`: copy a raw frame into `self.npImage` as its
first three channels, unless the frame is constant (`min == max`), in
which case `self.npImage` becomes the size-0 array. -/
def copy_image (raw : List (List (List Nat))) (s : AppState) : AppState :=
  let flat := raw.foldr (fun row acc => row.foldr (fun ch acc2 => ch ++ acc2) acc) []
  let isConstant := flat.all (fun v => v == flat.headD 0)
  if isConstant then { s with npImage := NpImg.empty }
  else
    let A := raw.map (fun row => row.map (fun ch => [ch.getD 0 0, ch.getD 1 0, ch.getD 2 0]))
    { s with npImage := NpImg.color3d A }

/-- `MainWindow.cameraOn`: when the SDK is available and the camera is
off, initialize and configure the camera (SDK calls) and set `camOn`;
otherwise do nothing. -/
def cameraOn (s : Cam2State) : Cam2State × List CamEvent :=
  if s.ueyeOK && !s.camOn then
    ({ s with camOn := true, initCount := s.initCount + 1 },
     [CamEvent.sdkInit, CamEvent.sdkConfig])
  else (s, [])

/-- `MainWindow.printCameraInfo`: when the SDK is available and the
camera is on, query (and poke) camera parameters through the SDK; no
Python-visible state changes. -/
def printCameraInfo (s : Cam2State) : Cam2State × List CamEvent :=
  if s.ueyeOK && s.camOn then (s, [CamEvent.sdkQuery]) else (s, [])

/-- `MainWindow.cameraOff`: when the SDK is available and the camera is
on, release the camera and clear `camOn`; otherwise do nothing. -/
def cameraOff (s : Cam2State) : Cam2State × List CamEvent :=
  if s.ueyeOK && s.camOn then
    ({ s with camOn := false }, [CamEvent.sdkExit])
  else (s, [])

/-- Body shared by `getOneImage` and `getOneImageV2` after their guards:
freeze the video, wait for a frame (one SDK capture interaction), copy it
into the three representations on success, and recompute `isAllGray`. -/
def captureBody (res : CaptureRes) (a : AppState) : AppState :=
  match res with
  | CaptureRes.fail => { a with isAllGray := setIsAllGrayVal a.image }
  | CaptureRes.frame raw =>
      let a1 := copy_image raw a
      let a2 :=
        if 0 < npSize a1.npImage then
          let image := np2qimage a1.npImage
          if !imgIsNull image then
            { a1 with image := image, pixmap := image, viewTransform := 0 }
          else { a1 with image := image, pixmap := [] }
        else { a1 with image := [], pixmap := [] }
      { a2 with isAllGray := setIsAllGrayVal a2.image }

/-- `MainWindow.getOneImage`: capture one image from the camera; guarded
by `ueyeOK and self.camOn`, with no effect (and no SDK call) otherwise. -/
def getOneImage (res : CaptureRes) (s : Cam2State) : Cam2State × List CamEvent :=
  if s.ueyeOK && s.camOn then
    ({ s with app := captureBody res s.app }, [CamEvent.sdkCapture])
  else (s, [])

/-- `MainWindow.getOneImageV2`: the 2022 variant; its guard
`if not(ueyeOK and self.camOn): return` and body have the same
semantics. -/
def getOneImageV2 (res : CaptureRes) (s : Cam2State) : Cam2State × List CamEvent :=
  if !(s.ueyeOK && s.camOn) then (s, [])
  else ({ s with app := captureBody res s.app }, [CamEvent.sdkCapture])

/-- A user action on the Camera menu, with the environment response a
capture carries. -/
inductive CamAction where
  | doCameraOn : CamAction
  | doPrintInfo : CamAction
  | doGetOne : CaptureRes → CamAction
  | doGetOneV2 : CaptureRes → CamAction
  | doCameraOff : CamAction
deriving DecidableEq, Repr

/-- One step of the camera state machine with its emitted SDK events. -/
def stepCam : CamAction → Cam2State → Cam2State × List CamEvent
  | CamAction.doCameraOn, s => cameraOn s
  | CamAction.doPrintInfo, s => printCameraInfo s
  | CamAction.doGetOne res, s => getOneImage res s
  | CamAction.doGetOneV2 res, s => getOneImageV2 res s
  | CamAction.doCameraOff, s => cameraOff s

/-- Run a sequence of camera actions. -/
def runCam (s : Cam2State) : List CamAction → Cam2State
  | [] => s
  | act :: acts => runCam (stepCam act s).1 acts

/-- A gray row rendered by `np2qimage` matches the gray values it came
from. -/
theorem grayRowMatch_render (row : List Nat) :
    grayRowMatch (row.map (fun v => (⟨v, v, v, 255⟩ : Px))) row = true := by
  induction row with
  | nil => rfl
  | cons v vs ih => simp [grayRowMatch, ih]

/-- A gray image rendered by `np2qimage` matches the array it came from. -/
theorem grayMatch_render (G : List (List Nat)) :
    grayMatch (np2qimage (NpImg.gray2d G)) G = true := by
  induction G with
  | nil => rfl
  | cons row rows ih =>
      simp only [np2qimage, List.map_cons, grayMatch] at ih ⊢
      simp [grayRowMatch_render, ih]

/-- A channel list of length 3 or 4 matches the pixel it converts to. -/
theorem pxMatch_chToPx (ch : List Nat) (h : ch.length = 3 ∨ ch.length = 4) :
    pxMatch (chToPx ch) ch = true := by
  rcases ch with _ | ⟨b, _ | ⟨g, _ | ⟨r, _ | ⟨a, _ | ⟨x, t⟩⟩⟩⟩⟩ <;>
    simp_all [pxMatch, chToPx]

/-- A color row whose channel lists all have length `c` (3 or 4) matches
its rendering. -/
theorem colorRowMatch_render (c : Nat) (hc : c = 3 ∨ c = 4) (row : List (List Nat))
    (h : row.all (fun ch => ch.length == c) = true) :
    colorRowMatch (row.map chToPx) row = true := by
  induction row with
  | nil => rfl
  | cons ch chs ih =>
      simp only [List.all_cons, Bool.and_eq_true, beq_iff_eq] at h
      have h1 : pxMatch (chToPx ch) ch = true := by
        apply pxMatch_chToPx
        rcases hc with rfl | rfl
        · exact Or.inl h.1
        · exact Or.inr h.1
      simp [colorRowMatch, h1, ih h.2]

/-- A color array with uniform channel count `c` (3 or 4) matches its
rendering. -/
theorem colorMatch_render_aux (c : Nat) (hc : c = 3 ∨ c = 4)
    (A : List (List (List Nat)))
    (h : A.all (fun row => row.all (fun ch => ch.length == c)) = true) :
    colorMatch (A.map (fun row => row.map chToPx)) A = true := by
  induction A with
  | nil => rfl
  | cons row rows ih =>
      simp only [List.all_cons, Bool.and_eq_true] at h
      simp only [List.map_cons, colorMatch, Bool.and_eq_true]
      exact ⟨colorRowMatch_render c hc row h.1, ih h.2⟩

/-- A color array accepted by the conversion guard matches its rendering. -/
theorem colorMatch_render (A : List (List (List Nat))) (hg : chGuard A = true) :
    colorMatch (A.map (fun row => row.map chToPx)) A = true := by
  simp only [chGuard, Bool.and_eq_true, Bool.or_eq_true, beq_iff_eq] at hg
  exact colorMatch_render_aux _ hg.1 A hg.2

/-- Any numpy array whose rendering is non-null matches that rendering. -/
theorem npMatches_np2qimage (B : NpImg) (h : imgIsNull (np2qimage B) = false) :
    npMatches (np2qimage B) B = true := by
  match B with
  | NpImg.empty => simp [np2qimage, imgIsNull, imgHeight] at h
  | NpImg.gray2d G => exact grayMatch_render G
  | NpImg.color3d A =>
      by_cases hg : chGuard A = true
      · simp only [npMatches, np2qimage, hg, if_true]
        exact colorMatch_render A hg
      · simp [np2qimage, hg, imgIsNull, imgHeight] at h

/-- An image row matches its own BGRA byte view. -/
theorem colorRowMatch_bgra (row : List Px) :
    colorRowMatch row (row.map (fun p => [p.b, p.g, p.r, p.a])) = true := by
  induction row with
  | nil => rfl
  | cons p ps ih => simp [colorRowMatch, pxMatch, ih]

/-- An image matches its own BGRA byte view (`qimage2np`). -/
theorem npMatches_qimage2np (im : QImg) : npMatches im (qimage2np im) = true := by
  show colorMatch im (im.map (fun row => row.map (fun p => [p.b, p.g, p.r, p.a]))) = true
  induction im with
  | nil => rfl
  | cons row rows ih => simp [colorMatch, colorRowMatch_bgra, ih]

/-- An all-gray image row matches the row of its blue components. -/
theorem grayRowMatch_blue (row : List Px)
    (h : row.all (fun p => p.r == p.g && p.g == p.b) = true) :
    grayRowMatch row (row.map Px.b) = true := by
  induction row with
  | nil => rfl
  | cons p ps ih =>
      simp only [List.all_cons, Bool.and_eq_true, beq_iff_eq] at h
      obtain ⟨⟨h1, h2⟩, h3⟩ := h
      simp [grayRowMatch, h1, h2, ih h3]

/-- An all-gray image matches the 2-dimensional array of its blue
components (channel 0 of the BGRA view). -/
theorem grayMatch_blue (im : QImg) (h : allGrayB im = true) :
    grayMatch im (im.map (fun row => row.map Px.b)) = true := by
  induction im with
  | nil => rfl
  | cons row rows ih =>
      simp only [allGrayB, List.all_cons, Bool.and_eq_true] at h
      have ih2 := ih (by simpa [allGrayB] using h.2)
      simp [grayMatch, grayRowMatch_blue row h.1, ih2]

/-- The numpy array rebuilt by `pixmap2image2np` always matches the image
it was rebuilt from. -/
theorem npMatches_rebuildNp (im : QImg) : npMatches im (rebuildNp im) = true := by
  unfold rebuildNp
  by_cases h : setIsAllGrayVal im = true
  · have hg : allGrayB im = true := by
      unfold setIsAllGrayVal at h
      by_cases hn : imgIsNull im = true
      · simp [hn] at h
      · simpa [hn] using h
    simp only [h, if_true]
    exact grayMatch_blue im hg
  · simp only [h]
    simp only [Bool.not_eq_true] at h
    simp [h, npMatches_qimage2np]

/-- The fields of the state other than the view transform are untouched
by `scaleOne`. -/
theorem scaleOne_fields (s : AppState) :
    (scaleOne s).pixmap = s.pixmap ∧ (scaleOne s).prevPixmap = s.prevPixmap ∧
    (scaleOne s).image = s.image ∧ (scaleOne s).npImage = s.npImage ∧
    (scaleOne s).isAllGray = s.isAllGray ∧ (scaleOne s).cropActive = s.cropActive := by
  unfold scaleOne
  by_cases h : imgIsNull s.pixmap = true <;> simp [h]

/-- Field computation of `pixmap2image2np`. -/
theorem pixmap2image2np_fields (s : AppState) :
    (pixmap2image2np s).pixmap = s.pixmap ∧
    (pixmap2image2np s).prevPixmap = s.prevPixmap ∧
    (pixmap2image2np s).image = s.pixmap ∧
    (pixmap2image2np s).npImage = rebuildNp s.pixmap ∧
    (pixmap2image2np s).cropActive = s.cropActive := by
  unfold pixmap2image2np
  have h := scaleOne_fields { s with
    image := s.pixmap, isAllGray := setIsAllGrayVal s.pixmap, npImage := rebuildNp s.pixmap }
  exact ⟨h.1, h.2.1, h.2.2.1, h.2.2.2.1, h.2.2.2.2.2⟩

/-- After `pixmap2image2np` the three representations always depict the
same image. -/
theorem inSync_pixmap2image2np (s : AppState) : inSync (pixmap2image2np s) = true := by
  obtain ⟨h1, _, h3, h4, _⟩ := pixmap2image2np_fields s
  simp [inSync, h1, h3, h4, npMatches_rebuildNp]

/-- Field computation of `np2image2pixmap`. -/
theorem np2image2pixmap_fields (B : NpImg) (na : Bool) (s : AppState) :
    (np2image2pixmap B na s).image = np2qimage B ∧
    (np2image2pixmap B na s).prevPixmap = s.prevPixmap ∧
    (np2image2pixmap B na s).npImage = (if na then B else s.npImage) ∧
    (np2image2pixmap B na s).cropActive = s.cropActive ∧
    (np2image2pixmap B na s).viewTransform = s.viewTransform ∧
    (np2image2pixmap B na s).pixmap =
      (if imgIsNull (np2qimage B) then s.pixmap else np2qimage B) := by
  unfold np2image2pixmap
  exact ⟨rfl, rfl, rfl, rfl, rfl, rfl⟩

/-- After a committing `np2image2pixmap` whose conversion is non-null
(either the numpy array is also stored, or it already is the current
array), the three representations depict the same image. -/
theorem inSync_np2image2pixmap (B : NpImg) (na : Bool) (s : AppState)
    (h : imgIsNull (np2qimage B) = false)
    (hnp : na = true ∨ s.npImage = B) :
    inSync (np2image2pixmap B na s) = true := by
  obtain ⟨h1, _, h3, _, _, h6⟩ := np2image2pixmap_fields B na s
  have hpix : (np2image2pixmap B na s).pixmap = np2qimage B := by
    rw [h6, h, if_neg (by simp)]
  have hnpv : (np2image2pixmap B na s).npImage = B := by
    rw [h3]
    rcases hnp with rfl | hEq
    · simp
    · by_cases hna : na = true <;> simp [hna, hEq]
  simp [inSync, hpix, h1, hnpv, npMatches_np2qimage B h]

/-- The three preview routines have the same body. -/
theorem tryFilter_eq_tryEdges : tryFilter = tryEdges := rfl

/-- The three preview routines have the same body. -/
theorem tryBinary_eq_tryEdges : tryBinary = tryEdges := rfl

/-- One preview leaves everything but image, pixmap and the cached
`isAllGray` flag unchanged. -/
theorem tryEdges_fields (B : NpImg) (s : AppState) :
    (tryEdges B s).npImage = s.npImage ∧
    (tryEdges B s).prevPixmap = s.prevPixmap ∧
    (tryEdges B s).cropActive = s.cropActive ∧
    (tryEdges B s).viewTransform = s.viewTransform := by
  unfold tryEdges
  have h := np2image2pixmap_fields B false s
  refine ⟨?_, h.2.1, h.2.2.2.1, h.2.2.2.2.1⟩
  rw [h.2.2.1]
  simp

/-- A sequence of previews leaves everything but image, pixmap and the
cached `isAllGray` flag unchanged. -/
theorem previews_fields (ps : List NpImg) (s : AppState) :
    (ps.foldl (fun st B => tryEdges B st) s).npImage = s.npImage ∧
    (ps.foldl (fun st B => tryEdges B st) s).prevPixmap = s.prevPixmap ∧
    (ps.foldl (fun st B => tryEdges B st) s).cropActive = s.cropActive ∧
    (ps.foldl (fun st B => tryEdges B st) s).viewTransform = s.viewTransform := by
  induction ps generalizing s with
  | nil => exact ⟨rfl, rfl, rfl, rfl⟩
  | cons B bs ih =>
      simp only [List.foldl_cons]
      have h1 := tryEdges_fields B s
      have h2 := ih (tryEdges B s)
      exact ⟨h2.1.trans h1.1, h2.2.1.trans h1.2.1,
             h2.2.2.1.trans h1.2.2.1, h2.2.2.2.trans h1.2.2.2⟩

/-- The rendering of a nonempty gray array with a nonempty first row is
non-null. -/
theorem np2qimage_gray_nonnull (G : List (List Nat)) (h1 : G ≠ [])
    (h2 : G.headD [] ≠ []) :
    imgIsNull (np2qimage (NpImg.gray2d G)) = false := by
  match G, h1 with
  | row :: rows, _ =>
      match row, h2 with
      | v :: vs, _ => simp [np2qimage, imgIsNull, imgHeight, imgWidth]

/-- A 3-dimensional array whose channel count (taken from the first
pixel) is at least 3 is nonempty and its first row is nonempty. -/
theorem channels_nonempty (A : List (List (List Nat)))
    (h : 3 ≤ ((A.headD []).headD []).length) :
    A ≠ [] ∧ A.headD [] ≠ [] := by
  constructor
  · intro hA
    subst hA
    simp at h
  · intro hr
    rw [hr] at h
    simp at h

/-- The gray conversions keep the row structure: the result is nonempty
with a nonempty first row whenever the input is. -/
theorem cvt_gray_nonnull (A : List (List (List Nat))) (hA : A ≠ [])
    (hr : A.headD [] ≠ []) :
    imgIsNull (np2qimage (NpImg.gray2d (cvtColorBGR2GRAY A))) = false := by
  apply np2qimage_gray_nonnull
  · intro h
    exact hA (List.map_eq_nil_iff.mp h)
  · match A, hA with
    | row :: rows, _ =>
        match row, hr with
        | ch :: chs, _ => simp [cvtColorBGR2GRAY]

/-- Reduction of `cropEnd` in crop mode with a large rectangle. -/
theorem cropEnd_large_eq (s : AppState) (r : CropRect) (h : s.cropActive = true)
    (hw : 5 < r.w) (hh : 5 < r.h) :
    cropEnd r s = some (pixmap2image2np
      { s with cropActive := false, prevPixmap := s.pixmap, pixmap := copyRect s.pixmap r }) := by
  unfold cropEnd
  rw [h]
  simp [hw, hh]

/-- Reduction of `cropEnd` outside crop mode. -/
theorem cropEnd_inactive_eq (s : AppState) (r : CropRect) (h : s.cropActive = false) :
    cropEnd r s = some s := by
  unfold cropEnd
  rw [h]
  simp

/-- Dimensions of a pixmap copy: exactly the rectangle's width and
height (for a rectangle of positive height). -/
theorem copyRect_dims (im : QImg) (r : CropRect) (hh : 0 < r.h) :
    imgHeight (copyRect im r) = r.h ∧ imgWidth (copyRect im r) = r.w := by
  constructor
  · simp only [copyRect, imgHeight, List.length_map, List.length_range]
  · unfold copyRect imgWidth
    cases hn : r.h with
    | zero => omega
    | succ n =>
        rw [List.range_succ_eq_map]
        simp only [List.map_cons, List.headD_cons, List.length_map, List.length_range]

/-- Reduction of `toGray` on a 3-channel array. -/
theorem toGray_eq_c3 (s : AppState) (A : List (List (List Nat)))
    (h : s.npImage = NpImg.color3d A) (h3 : ((A.headD []).headD []).length = 3) :
    toGray s = some (np2image2pixmap (NpImg.gray2d (cvtColorBGR2GRAY A)) true
      { s with prevPixmap := s.pixmap }) := by
  unfold toGray
  rw [h]
  simp only [List.headD_eq_head?] at h3
  simp [h3]

/-- Reduction of `toGray` on a 4-channel array. -/
theorem toGray_eq_c4 (s : AppState) (A : List (List (List Nat)))
    (h : s.npImage = NpImg.color3d A) (h4 : ((A.headD []).headD []).length = 4) :
    toGray s = some (np2image2pixmap (NpImg.gray2d (cvtColorBGRA2GRAY A)) true
      { s with prevPixmap := s.pixmap }) := by
  unfold toGray
  rw [h]
  simp only [List.headD_eq_head?] at h4
  simp [h4]

/-- Reduction of `toGray` on a 2-dimensional (already gray) array. -/
theorem toGray_eq_gray (s : AppState) (G : List (List Nat))
    (h : s.npImage = NpImg.gray2d G) : toGray s = some s := by
  unfold toGray
  rw [h]

/-- C9: all operations guarded by null-checks are safe no-ops on the
empty state: with a null pixmap, `scaleOne`, `scaleUp` and `scaleDown`
leave the view transform (indeed the whole state) unchanged, and with a
null `prevPixmap`, `undoLast` leaves pixmap, image and npImage (indeed
the whole state) unchanged; all four functions are total, so none of
them raises an error on a null image. -/
theorem claim9_null_safe (s : AppState) :
    (imgIsNull s.pixmap = true → scaleOne s = s ∧ scaleUp s = s ∧ scaleDown s = s) ∧
    (imgIsNull s.prevPixmap = true → undoLast s = s) := by
  constructor
  · intro h
    exact ⟨by simp [scaleOne, h], by simp [scaleUp, h], by simp [scaleDown, h]⟩
  · intro h
    unfold undoLast
    rw [if_neg]
    intro hc
    simp only [imgIsNull, Bool.or_eq_true, beq_iff_eq] at h
    rcases h with h | h
    · rw [h] at hc
      exact absurd hc.2 (by omega)
    · rw [h] at hc
      exact absurd hc.1 (by omega)

/-- Concrete empty state for the null-safety witness. -/
def stateNull : AppState :=
  { pixmap := [], prevPixmap := [], image := [], npImage := NpImg.empty,
    isAllGray := false, cropActive := false, viewTransform := 0 }

/-- Witness for `claim9_null_safe` at the concrete empty state. -/
theorem claim9_null_safe_witness :
    (scaleOne stateNull = stateNull ∧ scaleUp stateNull = stateNull ∧
     scaleDown stateNull = stateNull) ∧ undoLast stateNull = stateNull :=
  ⟨(claim9_null_safe stateNull).1 (by decide), (claim9_null_safe stateNull).2 (by decide)⟩

/-- C2: when `prevPixmap` is non-null (positive width and height),
`undoLast` swaps the current and previous pixmaps and rebuilds `image`
and `npImage` from the restored pixmap; when `prevPixmap` is null the
image state is unchanged. -/
theorem claim2_undo_swap (s : AppState) :
    (0 < imgWidth s.prevPixmap → 0 < imgHeight s.prevPixmap →
       (undoLast s).pixmap = s.prevPixmap ∧ (undoLast s).prevPixmap = s.pixmap ∧
       (undoLast s).image = s.prevPixmap ∧
       (undoLast s).npImage = rebuildNp s.prevPixmap) ∧
    (imgIsNull s.prevPixmap = true → undoLast s = s) := by
  constructor
  · intro hw hh
    unfold undoLast
    rw [if_pos ⟨hw, hh⟩]
    have h := pixmap2image2np_fields { s with pixmap := s.prevPixmap, prevPixmap := s.pixmap }
    exact ⟨h.1, h.2.1, h.2.2.1, h.2.2.2.1⟩
  · intro h
    unfold undoLast
    rw [if_neg]
    intro hc
    simp only [imgIsNull, Bool.or_eq_true, beq_iff_eq] at h
    rcases h with h | h
    · rw [h] at hc
      exact absurd hc.2 (by omega)
    · rw [h] at hc
      exact absurd hc.1 (by omega)

/-- Concrete state with a non-null previous pixmap for the undo witness. -/
def stateUndo : AppState :=
  { pixmap := [[⟨1, 2, 3, 255⟩]], prevPixmap := [[⟨7, 7, 7, 255⟩]],
    image := [[⟨1, 2, 3, 255⟩]], npImage := NpImg.color3d [[[3, 2, 1, 255]]],
    isAllGray := false, cropActive := false, viewTransform := 0 }

/-- Witness for `claim2_undo_swap` at a concrete state. -/
theorem claim2_undo_swap_witness :
    (undoLast stateUndo).pixmap = stateUndo.prevPixmap ∧
    (undoLast stateUndo).prevPixmap = stateUndo.pixmap ∧
    (undoLast stateUndo).image = stateUndo.prevPixmap ∧
    (undoLast stateUndo).npImage = rebuildNp stateUndo.prevPixmap :=
  (claim2_undo_swap stateUndo).1 (by decide) (by decide)

/-- C6: the preview routines `tryEdges`, `tryFilter` and `tryBinary` are
stateless with respect to the numeric array: for every library result
`B` they leave `npImage` unchanged (and also `prevPixmap`, `cropActive`
and the view transform; only `image`, `pixmap` and the cached
`isAllGray` flag, which the source keeps as a cache of
`image.allGray()`, are updated). -/
theorem claim6_previews_stateless (B : NpImg) (s : AppState) :
    (tryEdges B s).npImage = s.npImage ∧
    (tryFilter B s).npImage = s.npImage ∧
    (tryBinary B s).npImage = s.npImage ∧
    (tryEdges B s).prevPixmap = s.prevPixmap ∧
    (tryFilter B s).prevPixmap = s.prevPixmap ∧
    (tryBinary B s).prevPixmap = s.prevPixmap ∧
    (tryEdges B s).cropActive = s.cropActive ∧
    (tryFilter B s).cropActive = s.cropActive ∧
    (tryBinary B s).cropActive = s.cropActive ∧
    (tryEdges B s).viewTransform = s.viewTransform ∧
    (tryFilter B s).viewTransform = s.viewTransform ∧
    (tryBinary B s).viewTransform = s.viewTransform := by
  have h := tryEdges_fields B s
  rw [tryFilter_eq_tryEdges, tryBinary_eq_tryEdges]
  exact ⟨h.1, h.1, h.1, h.2.1, h.2.1, h.2.1, h.2.2.1, h.2.2.1, h.2.2.1,
         h.2.2.2, h.2.2.2, h.2.2.2⟩

/-- C4: with crop mode active and a rectangle wider and taller than 5,
`cropEnd` replaces the pixmap by the copy of exactly that rectangle of
the pre-crop pixmap (so the new pixmap has the rectangle's width and
height), stores the pre-crop pixmap in `prevPixmap` and clears
`cropActive`; with crop mode off, `cropEnd` changes nothing. -/
theorem claim4_crop_large (s : AppState) (r : CropRect) :
    (s.cropActive = true → 5 < r.w → 5 < r.h →
       ∃ t, cropEnd r s = some t ∧
         t.pixmap = copyRect s.pixmap r ∧
         imgWidth t.pixmap = r.w ∧ imgHeight t.pixmap = r.h ∧
         t.prevPixmap = s.pixmap ∧ t.cropActive = false) ∧
    (s.cropActive = false → cropEnd r s = some s) := by
  constructor
  · intro h hw hh
    refine ⟨_, cropEnd_large_eq s r h hw hh, ?_, ?_, ?_, ?_, ?_⟩
    · exact (pixmap2image2np_fields _).1
    · rw [(pixmap2image2np_fields _).1]
      exact (copyRect_dims s.pixmap r (by omega)).2
    · rw [(pixmap2image2np_fields _).1]
      exact (copyRect_dims s.pixmap r (by omega)).1
    · exact (pixmap2image2np_fields _).2.1
    · exact (pixmap2image2np_fields _).2.2.2.2
  · intro h
    exact cropEnd_inactive_eq s r h

/-- Concrete state in crop mode for the large-rectangle crop witness. -/
def stateCrop : AppState :=
  { pixmap := [[⟨1, 1, 1, 255⟩]], prevPixmap := [], image := [[⟨1, 1, 1, 255⟩]],
    npImage := NpImg.color3d [[[1, 1, 1, 255]]],
    isAllGray := false, cropActive := true, viewTransform := 0 }

/-- Witness for `claim4_crop_large` at a concrete state and rectangle. -/
theorem claim4_crop_large_witness :
    (∃ t, cropEnd ⟨0, 0, 6, 7⟩ stateCrop = some t ∧
       t.pixmap = copyRect stateCrop.pixmap ⟨0, 0, 6, 7⟩ ∧
       imgWidth t.pixmap = 6 ∧ imgHeight t.pixmap = 7 ∧
       t.prevPixmap = stateCrop.pixmap ∧ t.cropActive = false) :=
  (claim4_crop_large stateCrop ⟨0, 0, 6, 7⟩).1 (by decide) (by decide) (by decide)

/-- Reduction of `toEdges` on Cancel. -/
theorem toEdges_none_eq (ps : List NpImg) (s : AppState) :
    toEdges ps none s =
      { pixmap2image2np
          { ps.foldl (fun st B => tryEdges B st) { s with prevPixmap := s.pixmap } with
            pixmap :=
              (ps.foldl (fun st B => tryEdges B st) { s with prevPixmap := s.pixmap }).prevPixmap }
        with prevPixmap := s.prevPixmap } := rfl

/-- Reduction of `toEdges` on OK. -/
theorem toEdges_some_eq (ps : List NpImg) (B : NpImg) (s : AppState) :
    toEdges ps (some B) s =
      np2image2pixmap B true
        (ps.foldl (fun st C => tryEdges C st) { s with prevPixmap := s.pixmap }) := rfl

/-- The loss of the two components of a true `inSync`. -/
theorem inSync_elim (s : AppState) (h : inSync s = true) :
    s.pixmap = s.image ∧ npMatches s.image s.npImage = true := by
  unfold inSync at h
  simp only [Bool.and_eq_true, beq_iff_eq] at h
  exact h

/-- C5: when the dialog of `toEdges`, `filterImage`, `toBinary` or
`resizeImage` is cancelled, the operation is atomic: `pixmap`, `image`
and `prevPixmap` are restored exactly, and `npImage` again depicts the
same image (`resizeImage` restores the whole state exactly; the other
three share one body, rebuild `npImage` from the restored pixmap, and
need the pre-state to be synchronized). -/
theorem claim5_cancel_atomic :
    (∀ s : AppState, resizeImage none s = s) ∧
    (∀ (s : AppState) (ps : List NpImg), inSync s = true →
       (toEdges ps none s).pixmap = s.pixmap ∧
       (toEdges ps none s).image = s.image ∧
       (toEdges ps none s).prevPixmap = s.prevPixmap ∧
       npMatches s.image (toEdges ps none s).npImage = true) ∧
    (∀ (s : AppState) (ps : List NpImg), filterImage ps none s = toEdges ps none s) ∧
    (∀ (s : AppState) (ps : List NpImg), toBinary ps none s = toEdges ps none s) := by
  refine ⟨fun s => rfl, ?_, fun s ps => rfl, fun s ps => rfl⟩
  intro s ps hsync
  have hpi : s.pixmap = s.image := (inSync_elim s hsync).1
  rw [toEdges_none_eq]
  have hprev :
      (ps.foldl (fun st B => tryEdges B st) { s with prevPixmap := s.pixmap }).prevPixmap
        = s.pixmap :=
    (previews_fields ps { s with prevPixmap := s.pixmap }).2.1
  have hf := pixmap2image2np_fields
    { ps.foldl (fun st B => tryEdges B st) { s with prevPixmap := s.pixmap } with
      pixmap :=
        (ps.foldl (fun st B => tryEdges B st) { s with prevPixmap := s.pixmap }).prevPixmap }
  refine ⟨?_, ?_, rfl, ?_⟩
  · show (pixmap2image2np _).pixmap = s.pixmap
    rw [hf.1]
    exact hprev
  · show (pixmap2image2np _).image = s.image
    rw [hf.2.2.1]
    rw [show ({ ps.foldl (fun st B => tryEdges B st) { s with prevPixmap := s.pixmap } with
          pixmap :=
            (ps.foldl (fun st B => tryEdges B st) { s with prevPixmap := s.pixmap }).prevPixmap }
        : AppState).pixmap =
        (ps.foldl (fun st B => tryEdges B st) { s with prevPixmap := s.pixmap }).prevPixmap
      from rfl]
    rw [hprev]
    exact hpi
  · show npMatches s.image (pixmap2image2np _).npImage = true
    rw [hf.2.2.2.1]
    rw [show ({ ps.foldl (fun st B => tryEdges B st) { s with prevPixmap := s.pixmap } with
          pixmap :=
            (ps.foldl (fun st B => tryEdges B st) { s with prevPixmap := s.pixmap }).prevPixmap }
        : AppState).pixmap =
        (ps.foldl (fun st B => tryEdges B st) { s with prevPixmap := s.pixmap }).prevPixmap
      from rfl]
    rw [hprev, hpi]
    exact npMatches_rebuildNp s.image

/-- Concrete synchronized gray state for the cancel-atomicity witness. -/
def stateCancel : AppState :=
  { pixmap := [[⟨5, 5, 5, 255⟩]], prevPixmap := [[⟨9, 9, 9, 255⟩]],
    image := [[⟨5, 5, 5, 255⟩]], npImage := NpImg.gray2d [[5]],
    isAllGray := true, cropActive := false, viewTransform := 0 }

/-- Witness for `claim5_cancel_atomic` at a concrete synchronized state,
with one preview shown before Cancel. -/
theorem claim5_cancel_atomic_witness :
    (toEdges [NpImg.gray2d [[9]]] none stateCancel).pixmap = stateCancel.pixmap ∧
    (toEdges [NpImg.gray2d [[9]]] none stateCancel).image = stateCancel.image ∧
    (toEdges [NpImg.gray2d [[9]]] none stateCancel).prevPixmap = stateCancel.prevPixmap ∧
    npMatches stateCancel.image (toEdges [NpImg.gray2d [[9]]] none stateCancel).npImage = true ∧
    resizeImage none stateCancel = stateCancel := by
  have h := claim5_cancel_atomic.2.1 stateCancel [NpImg.gray2d [[9]]] (by decide)
  exact ⟨h.1, h.2.1, h.2.2.1, h.2.2.2, claim5_cancel_atomic.1 stateCancel⟩

/-- Reduction of `toGray` when the channel count is 5 or more: the Python
local `B` stays unbound and the call raises `NameError`. -/
theorem toGray_eq_bad (s : AppState) (A : List (List (List Nat)))
    (h : s.npImage = NpImg.color3d A) (hc : 3 ≤ ((A.headD []).headD []).length)
    (h3 : ((A.headD []).headD []).length ≠ 3)
    (h4 : ((A.headD []).headD []).length ≠ 4) : toGray s = none := by
  unfold toGray
  rw [h]
  simp only [List.headD_eq_head?] at hc h3 h4
  simp [hc, h3, h4]

/-- The two gray conversions of the vision library share the luma map
(alpha is ignored). -/
theorem cvtBGRA_eq_cvtBGR : cvtColorBGRA2GRAY = cvtColorBGR2GRAY := rfl

/-- C3: the undo history is a single slot: every committing edit
operation (`toGray` on a color image, large-rectangle `cropEnd`,
accepted `toEdges`, accepted `filterImage`, accepted `toBinary`,
accepted `resizeImage`) sets `prevPixmap` to exactly the pixmap that was
current immediately before that edit, overwriting whatever was stored
there. -/
theorem claim3_single_slot :
    (∀ (s t : AppState) (A : List (List (List Nat))),
        s.npImage = NpImg.color3d A → 3 ≤ npChannels s.npImage →
        toGray s = some t → t.prevPixmap = s.pixmap) ∧
    (∀ (s t : AppState) (r : CropRect),
        s.cropActive = true → 5 < r.w → 5 < r.h →
        cropEnd r s = some t → t.prevPixmap = s.pixmap) ∧
    (∀ (s : AppState) (ps : List NpImg) (B : NpImg),
        (toEdges ps (some B) s).prevPixmap = s.pixmap) ∧
    (∀ (s : AppState) (ps : List NpImg) (B : NpImg),
        (filterImage ps (some B) s).prevPixmap = s.pixmap) ∧
    (∀ (s : AppState) (ps : List NpImg) (B : NpImg),
        (toBinary ps (some B) s).prevPixmap = s.pixmap) ∧
    (∀ (s : AppState) (B : NpImg),
        (resizeImage (some B) s).prevPixmap = s.pixmap) := by
  have hEdges : ∀ (s : AppState) (ps : List NpImg) (B : NpImg),
      (toEdges ps (some B) s).prevPixmap = s.pixmap := by
    intro s ps B
    rw [toEdges_some_eq]
    rw [(np2image2pixmap_fields B true _).2.1]
    exact (previews_fields ps { s with prevPixmap := s.pixmap }).2.1
  refine ⟨?_, ?_, hEdges, ?_, ?_, ?_⟩
  · intro s t A h hc ht
    rw [show npChannels s.npImage = ((A.headD []).headD []).length by rw [h]; rfl] at hc
    by_cases h3 : ((A.headD []).headD []).length = 3
    · rw [toGray_eq_c3 s A h h3] at ht
      cases ht
      exact (np2image2pixmap_fields _ true _).2.1
    · by_cases h4 : ((A.headD []).headD []).length = 4
      · rw [toGray_eq_c4 s A h h4] at ht
        cases ht
        exact (np2image2pixmap_fields _ true _).2.1
      · rw [toGray_eq_bad s A h hc h3 h4] at ht
        cases ht
  · intro s t r h hw hh ht
    rw [cropEnd_large_eq s r h hw hh] at ht
    cases ht
    exact (pixmap2image2np_fields _).2.1
  · intro s ps B
    show (toEdges ps (some B) s).prevPixmap = s.pixmap
    exact hEdges s ps B
  · intro s ps B
    show (toEdges ps (some B) s).prevPixmap = s.pixmap
    exact hEdges s ps B
  · intro s B
    exact (np2image2pixmap_fields B true _).2.1

/-- Concrete color state for the single-slot-history witness. -/
def stateSlot : AppState :=
  { pixmap := [[⟨1, 2, 3, 255⟩]], prevPixmap := [[⟨8, 8, 8, 255⟩]],
    image := [[⟨1, 2, 3, 255⟩]], npImage := NpImg.color3d [[[3, 2, 1]]],
    isAllGray := false, cropActive := false, viewTransform := 0 }

/-- Witness for `claim3_single_slot` at concrete inputs: an accepted
`toEdges` and a `toGray` on a 3-channel state both store the pre-edit
pixmap. -/
theorem claim3_single_slot_witness :
    (toEdges [] (some (NpImg.gray2d [[4]])) stateSlot).prevPixmap = stateSlot.pixmap ∧
    (∃ t, toGray stateSlot = some t ∧ t.prevPixmap = stateSlot.pixmap) := by
  constructor
  · exact claim3_single_slot.2.2.1 stateSlot [] (NpImg.gray2d [[4]])
  · refine ⟨np2image2pixmap (NpImg.gray2d (cvtColorBGR2GRAY [[[3, 2, 1]]])) true
      { stateSlot with prevPixmap := stateSlot.pixmap }, by decide, ?_⟩
    exact claim3_single_slot.1 stateSlot _ [[[3, 2, 1]]] rfl (by decide) (by decide)

/-- C7: on a 3-dimensional array with 3 channels, `toGray` commits the
BGR-to-gray conversion into all three representations and saves the
pre-edit pixmap; with 4 channels it commits the BGRA-to-gray conversion;
on a 2-dimensional (already gray) array it leaves the state — in
particular pixmap, image, npImage and prevPixmap — unchanged. -/
theorem claim7_toGray :
    (∀ (s : AppState) (A : List (List (List Nat))),
        s.npImage = NpImg.color3d A → npChannels s.npImage = 3 →
        ∃ t, toGray s = some t ∧
          t.npImage = NpImg.gray2d (cvtColorBGR2GRAY A) ∧
          t.image = np2qimage (NpImg.gray2d (cvtColorBGR2GRAY A)) ∧
          t.pixmap = t.image ∧ t.prevPixmap = s.pixmap) ∧
    (∀ (s : AppState) (A : List (List (List Nat))),
        s.npImage = NpImg.color3d A → npChannels s.npImage = 4 →
        ∃ t, toGray s = some t ∧
          t.npImage = NpImg.gray2d (cvtColorBGRA2GRAY A) ∧
          t.image = np2qimage (NpImg.gray2d (cvtColorBGRA2GRAY A)) ∧
          t.pixmap = t.image ∧ t.prevPixmap = s.pixmap) ∧
    (∀ (s : AppState) (G : List (List Nat)),
        s.npImage = NpImg.gray2d G → toGray s = some s) := by
  refine ⟨?_, ?_, fun s G h => toGray_eq_gray s G h⟩
  · intro s A h hch
    rw [show npChannels s.npImage = ((A.headD []).headD []).length by rw [h]; rfl] at hch
    have hne := channels_nonempty A (by omega)
    have hnn := cvt_gray_nonnull A hne.1 hne.2
    refine ⟨_, toGray_eq_c3 s A h hch, ?_, ?_, ?_, ?_⟩
    · have := (np2image2pixmap_fields (NpImg.gray2d (cvtColorBGR2GRAY A)) true
        { s with prevPixmap := s.pixmap }).2.2.1
      rw [this]
      simp
    · exact (np2image2pixmap_fields _ true _).1
    · have hfields := np2image2pixmap_fields (NpImg.gray2d (cvtColorBGR2GRAY A)) true
        { s with prevPixmap := s.pixmap }
      rw [hfields.2.2.2.2.2, hfields.1, hnn]
      simp
    · exact (np2image2pixmap_fields _ true _).2.1
  · intro s A h hch
    rw [show npChannels s.npImage = ((A.headD []).headD []).length by rw [h]; rfl] at hch
    have hne := channels_nonempty A (by omega)
    have hnn := cvt_gray_nonnull A hne.1 hne.2
    rw [← cvtBGRA_eq_cvtBGR] at hnn
    refine ⟨_, toGray_eq_c4 s A h hch, ?_, ?_, ?_, ?_⟩
    · have := (np2image2pixmap_fields (NpImg.gray2d (cvtColorBGRA2GRAY A)) true
        { s with prevPixmap := s.pixmap }).2.2.1
      rw [this]
      simp
    · exact (np2image2pixmap_fields _ true _).1
    · have hfields := np2image2pixmap_fields (NpImg.gray2d (cvtColorBGRA2GRAY A)) true
        { s with prevPixmap := s.pixmap }
      rw [hfields.2.2.2.2.2, hfields.1, hnn]
      simp
    · exact (np2image2pixmap_fields _ true _).2.1

/-- Concrete 3-channel state and concrete gray state for the `toGray`
witness. -/
def stateToGray : AppState :=
  { pixmap := [[⟨30, 20, 10, 255⟩]], prevPixmap := [], image := [[⟨30, 20, 10, 255⟩]],
    npImage := NpImg.color3d [[[10, 20, 30]]],
    isAllGray := false, cropActive := false, viewTransform := 0 }

/-- Concrete already-gray state for the `toGray` witness. -/
def stateToGrayG : AppState :=
  { pixmap := [[⟨6, 6, 6, 255⟩]], prevPixmap := [], image := [[⟨6, 6, 6, 255⟩]],
    npImage := NpImg.gray2d [[6]],
    isAllGray := true, cropActive := false, viewTransform := 0 }

/-- Witness for `claim7_toGray` at concrete inputs. -/
theorem claim7_toGray_witness :
    (∃ t, toGray stateToGray = some t ∧
       t.npImage = NpImg.gray2d (cvtColorBGR2GRAY [[[10, 20, 30]]]) ∧
       t.image = np2qimage (NpImg.gray2d (cvtColorBGR2GRAY [[[10, 20, 30]]])) ∧
       t.pixmap = t.image ∧ t.prevPixmap = stateToGray.pixmap) ∧
    toGray stateToGrayG = some stateToGrayG :=
  ⟨claim7_toGray.1 stateToGray [[[10, 20, 30]]] rfl (by decide),
   claim7_toGray.2.2 stateToGrayG [[6]] rfl⟩

/-- Reduction of `detectCornersHarris` when the array after the optional
resize is gray 2-dimensional. -/
theorem harris_eq_gray (resized : NpImg) (mask : List (List Bool)) (s : AppState)
    (G : List (List Nat)) (hne : s.npImage ≠ NpImg.empty)
    (h : harrisA1 resized s = NpImg.gray2d G) :
    detectCornersHarris resized mask s =
      np2image2pixmap (harrisDrawn mask (NpImg.gray2d G)) false
        { s with npImage := harrisDrawn mask (NpImg.gray2d G) } := by
  unfold detectCornersHarris
  cases hs : s.npImage with
  | empty => exact absurd hs hne
  | gray2d G0 => rw [h]
  | color3d A0 => rw [h]

/-- Reduction of `detectCornersHarris` when the array after the optional
resize is 3-dimensional with 3 or 4 channels. -/
theorem harris_eq_color (resized : NpImg) (mask : List (List Bool)) (s : AppState)
    (A : List (List (List Nat))) (hne : s.npImage ≠ NpImg.empty)
    (h : harrisA1 resized s = NpImg.color3d A)
    (hc : 3 ≤ ((A.headD []).headD []).length ∧ ((A.headD []).headD []).length ≤ 4) :
    detectCornersHarris resized mask s =
      np2image2pixmap (harrisDrawn mask (NpImg.color3d A)) false
        { s with npImage := harrisDrawn mask (NpImg.color3d A) } := by
  unfold detectCornersHarris
  simp only [List.headD_eq_head?] at hc
  cases hs : s.npImage with
  | empty => exact absurd hs hne
  | gray2d G0 =>
      rw [h]
      simp [hc.1, hc.2]
  | color3d A0 =>
      rw [h]
      simp [hc.1, hc.2]

/-- Reduction of `resizeImage` on OK. -/
theorem resizeImage_some_eq (B : NpImg) (s : AppState) :
    resizeImage (some B) s = np2image2pixmap B true { s with prevPixmap := s.pixmap } := rfl

/-- C1 (amended): after every edit operation that commits a new image —
`toGray` on a color array, large-rectangle `cropEnd`, accepted
`toEdges` / `filterImage` / `toBinary` / `resizeImage` (whenever the
committed array renders to a non-null image), non-null `undoLast`, and
`detectCornersHarris` on a processable array — the three representations
`pixmap`, `image` and `npImage` depict the same image.  The `drawlines`
action is excluded: it displays the lines image without updating
`npImage` (see its counterexample). -/
theorem claim1_sync_after_commit :
    (∀ (s t : AppState) (A : List (List (List Nat))),
        s.npImage = NpImg.color3d A → 3 ≤ npChannels s.npImage →
        toGray s = some t → inSync t = true) ∧
    (∀ (s t : AppState) (r : CropRect),
        s.cropActive = true → 5 < r.w → 5 < r.h →
        cropEnd r s = some t → inSync t = true) ∧
    (∀ (s : AppState) (ps : List NpImg) (B : NpImg),
        imgIsNull (np2qimage B) = false →
        inSync (toEdges ps (some B) s) = true) ∧
    (∀ (s : AppState) (ps : List NpImg) (B : NpImg),
        imgIsNull (np2qimage B) = false →
        inSync (filterImage ps (some B) s) = true) ∧
    (∀ (s : AppState) (ps : List NpImg) (B : NpImg),
        imgIsNull (np2qimage B) = false →
        inSync (toBinary ps (some B) s) = true) ∧
    (∀ (s : AppState) (B : NpImg),
        imgIsNull (np2qimage B) = false →
        inSync (resizeImage (some B) s) = true) ∧
    (∀ s : AppState, 0 < imgWidth s.prevPixmap → 0 < imgHeight s.prevPixmap →
        inSync (undoLast s) = true) ∧
    (∀ (s : AppState) (resized : NpImg) (mask : List (List Bool)),
        s.npImage ≠ NpImg.empty → harrisOK (harrisA1 resized s) = true →
        imgIsNull (np2qimage (harrisDrawn mask (harrisA1 resized s))) = false →
        inSync (detectCornersHarris resized mask s) = true) := by
  have hEdges : ∀ (s : AppState) (ps : List NpImg) (B : NpImg),
      imgIsNull (np2qimage B) = false → inSync (toEdges ps (some B) s) = true := by
    intro s ps B h
    rw [toEdges_some_eq]
    exact inSync_np2image2pixmap B true _ h (Or.inl rfl)
  refine ⟨?_, ?_, hEdges, ?_, ?_, ?_, ?_, ?_⟩
  · intro s t A h hch ht
    rw [show npChannels s.npImage = ((A.headD []).headD []).length by rw [h]; rfl] at hch
    have hne := channels_nonempty A hch
    have hnn := cvt_gray_nonnull A hne.1 hne.2
    by_cases h3 : ((A.headD []).headD []).length = 3
    · rw [toGray_eq_c3 s A h h3] at ht
      cases ht
      exact inSync_np2image2pixmap _ true _ hnn (Or.inl rfl)
    · by_cases h4 : ((A.headD []).headD []).length = 4
      · rw [toGray_eq_c4 s A h h4] at ht
        cases ht
        rw [cvtBGRA_eq_cvtBGR]
        exact inSync_np2image2pixmap _ true _ hnn (Or.inl rfl)
      · rw [toGray_eq_bad s A h hch h3 h4] at ht
        cases ht
  · intro s t r h hw hh ht
    rw [cropEnd_large_eq s r h hw hh] at ht
    cases ht
    exact inSync_pixmap2image2np _
  · intro s ps B h
    show inSync (toEdges ps (some B) s) = true
    exact hEdges s ps B h
  · intro s ps B h
    show inSync (toEdges ps (some B) s) = true
    exact hEdges s ps B h
  · intro s B h
    rw [resizeImage_some_eq]
    exact inSync_np2image2pixmap B true _ h (Or.inl rfl)
  · intro s hw hh
    unfold undoLast
    rw [if_pos ⟨hw, hh⟩]
    exact inSync_pixmap2image2np _
  · intro s resized mask hne hok hnn
    cases hA1 : harrisA1 resized s with
    | empty =>
        rw [hA1] at hok
        simp [harrisOK] at hok
    | gray2d G =>
        rw [hA1] at hnn
        rw [harris_eq_gray resized mask s G hne hA1]
        exact inSync_np2image2pixmap _ false _ hnn (Or.inr rfl)
    | color3d A =>
        rw [hA1] at hok hnn
        have hc : 3 ≤ ((A.headD []).headD []).length ∧
            ((A.headD []).headD []).length ≤ 4 := by
          simpa [harrisOK, Bool.and_eq_true, decide_eq_true_eq] using hok
        rw [harris_eq_color resized mask s A hne hA1 hc]
        exact inSync_np2image2pixmap _ false _ hnn (Or.inr rfl)

/-- Concrete synchronized color state for the sync witness. -/
def stateSync : AppState :=
  { pixmap := [[⟨3, 2, 1, 255⟩]], prevPixmap := [[⟨4, 4, 4, 255⟩]],
    image := [[⟨3, 2, 1, 255⟩]], npImage := NpImg.color3d [[[1, 2, 3]]],
    isAllGray := false, cropActive := false, viewTransform := 0 }

/-- Witness for `claim1_sync_after_commit` at concrete inputs: an
accepted `toEdges`, a non-null `undoLast` and a `detectCornersHarris`
run all leave the three representations synchronized. -/
theorem claim1_sync_after_commit_witness :
    inSync (toEdges [] (some (NpImg.gray2d [[7]])) stateSync) = true ∧
    inSync (undoLast stateSync) = true ∧
    inSync (detectCornersHarris NpImg.empty [[true]] stateSync) = true :=
  ⟨claim1_sync_after_commit.2.2.1 stateSync [] (NpImg.gray2d [[7]]) (by decide),
   claim1_sync_after_commit.2.2.2.2.2.2.1 stateSync (by decide) (by decide),
   claim1_sync_after_commit.2.2.2.2.2.2.2 stateSync NpImg.empty [[true]]
     (by decide) (by decide) (by decide)⟩

/-- Concrete synchronized state on which `drawlines` is run for the
counterexample: a blue 1-by-1 image. -/
def stateLines : AppState :=
  { pixmap := [[⟨0, 0, 10, 255⟩]], prevPixmap := [], image := [[⟨0, 0, 10, 255⟩]],
    npImage := NpImg.color3d [[[10, 0, 0]]],
    isAllGray := false, cropActive := false, viewTransform := 0 }

/-- Counterexample to C1 as stated: starting from a synchronized state,
the `drawlines` action (here with no Hough line covering the pixel, as
on this uniform image) leaves `npImage` at its old value while `pixmap`
and `image` show the gray-converted line image, so the three
representations no longer depict the same image. -/
theorem claim1_drawlines_desync :
    inSync stateLines = true ∧
    (drawlines [[false]] stateLines).map inSync = some false := by decide

/-- Concrete state for the hidden small-rectangle crop: a synchronized
6-row by 4-column gray image whose only black margin is its first
column. -/
def stateBlackFrame : AppState :=
  { pixmap := np2qimage (NpImg.gray2d
      [[0, 1, 1, 1], [0, 1, 1, 1], [0, 1, 1, 1], [0, 1, 1, 1], [0, 1, 1, 1], [0, 1, 1, 1]]),
    prevPixmap := [],
    image := np2qimage (NpImg.gray2d
      [[0, 1, 1, 1], [0, 1, 1, 1], [0, 1, 1, 1], [0, 1, 1, 1], [0, 1, 1, 1], [0, 1, 1, 1]]),
    npImage := NpImg.gray2d
      [[0, 1, 1, 1], [0, 1, 1, 1], [0, 1, 1, 1], [0, 1, 1, 1], [0, 1, 1, 1], [0, 1, 1, 1]],
    isAllGray := true, cropActive := true, viewTransform := 0 }

/-- C10, evaluated at the failing input: on the 6-by-4 image whose only
black margin is the left column (`left = 1`, `right = top = bottom = 0`,
so `w = 3` and `h = 6`), the small-rectangle branch of `cropEnd` commits
a 3-by-3 array — the source slices `A[top:top+w, left:left+w]`, using
the WIDTH `w` for the row extent — while cutting out the black frame, as
the claim and the code's own docstring and log message describe, would
commit the 6-by-3 array of height `rows - top - bottom`. -/
theorem claim10_crop_small_bug :
    (cropEnd ⟨0, 0, 1, 1⟩ stateBlackFrame).map (fun t => t.npImage)
      = some (NpImg.gray2d [[1, 1, 1], [1, 1, 1], [1, 1, 1]]) ∧
    (cropEnd ⟨0, 0, 1, 1⟩ stateBlackFrame).map (fun t => npRows t.npImage) = some 3 ∧
    npRows stateBlackFrame.npImage = 6 := by decide

/-- One camera step does not change the module constant `ueyeOK`. -/
theorem stepCam_ueyeOK (a : CamAction) (s : Cam2State) :
    ((stepCam a s).1).ueyeOK = s.ueyeOK := by
  cases a with
  | doCameraOn =>
      show (cameraOn s).1.ueyeOK = s.ueyeOK
      unfold cameraOn
      split <;> rfl
  | doPrintInfo =>
      show (printCameraInfo s).1.ueyeOK = s.ueyeOK
      unfold printCameraInfo
      split <;> rfl
  | doGetOne res =>
      show (getOneImage res s).1.ueyeOK = s.ueyeOK
      unfold getOneImage
      split <;> rfl
  | doGetOneV2 res =>
      show (getOneImageV2 res s).1.ueyeOK = s.ueyeOK
      unfold getOneImageV2
      split <;> rfl
  | doCameraOff =>
      show (cameraOff s).1.ueyeOK = s.ueyeOK
      unfold cameraOff
      split <;> rfl

/-- One camera step preserves the invariant that the camera can only be
on when the vendor SDK is available. -/
theorem stepCam_inv (a : CamAction) (s : Cam2State)
    (h : s.camOn = true → s.ueyeOK = true) :
    (stepCam a s).1.camOn = true → (stepCam a s).1.ueyeOK = true := by
  intro hc
  rw [stepCam_ueyeOK]
  cases a with
  | doCameraOn =>
      rw [show stepCam CamAction.doCameraOn s = cameraOn s from rfl] at hc
      unfold cameraOn at hc
      by_cases hg : (s.ueyeOK && !s.camOn) = true
      · exact (Bool.and_eq_true _ _ |>.mp hg).1
      · rw [if_neg hg] at hc
        exact h hc
  | doPrintInfo =>
      rw [show stepCam CamAction.doPrintInfo s = printCameraInfo s from rfl] at hc
      unfold printCameraInfo at hc
      by_cases hg : (s.ueyeOK && s.camOn) = true
      · exact (Bool.and_eq_true _ _ |>.mp hg).1
      · rw [if_neg hg] at hc
        exact h hc
  | doGetOne res =>
      rw [show stepCam (CamAction.doGetOne res) s = getOneImage res s from rfl] at hc
      unfold getOneImage at hc
      by_cases hg : (s.ueyeOK && s.camOn) = true
      · exact (Bool.and_eq_true _ _ |>.mp hg).1
      · rw [if_neg hg] at hc
        exact h hc
  | doGetOneV2 res =>
      rw [show stepCam (CamAction.doGetOneV2 res) s = getOneImageV2 res s from rfl] at hc
      unfold getOneImageV2 at hc
      by_cases hg : (s.ueyeOK && s.camOn) = true
      · exact (Bool.and_eq_true _ _ |>.mp hg).1
      · rw [if_pos (by simp [hg])] at hc
        exact h hc
  | doCameraOff =>
      rw [show stepCam CamAction.doCameraOff s = cameraOff s from rfl] at hc
      unfold cameraOff at hc
      by_cases hg : (s.ueyeOK && s.camOn) = true
      · rw [if_pos hg] at hc
        simp at hc
      · rw [if_neg hg] at hc
        exact h hc

/-- C8: the camera state machine never touches the vendor SDK while the
camera is off: `getOneImage`, `getOneImageV2`, `printCameraInfo` and
`cameraOff` call the SDK (emit events) and modify state only when
`ueyeOK` and `camOn` both hold — otherwise they return the state
unchanged with no SDK interaction; `cameraOn` initializes the camera
only when `camOn` is false (and the SDK is available) and then sets
`camOn`; along every run from a state satisfying the `camOn → ueyeOK`
invariant the invariant is preserved, and `cameraOff` always ends with
`camOn` false. -/
theorem claim8_camera_guard :
    (∀ (s : Cam2State) (res : CaptureRes),
        ¬(s.ueyeOK = true ∧ s.camOn = true) → getOneImage res s = (s, [])) ∧
    (∀ (s : Cam2State) (res : CaptureRes),
        ¬(s.ueyeOK = true ∧ s.camOn = true) → getOneImageV2 res s = (s, [])) ∧
    (∀ s : Cam2State, ¬(s.ueyeOK = true ∧ s.camOn = true) → printCameraInfo s = (s, [])) ∧
    (∀ s : Cam2State, ¬(s.ueyeOK = true ∧ s.camOn = true) → cameraOff s = (s, [])) ∧
    (∀ s : Cam2State, s.camOn = true → cameraOn s = (s, [])) ∧
    (∀ s : Cam2State, s.ueyeOK = true → s.camOn = false →
        (cameraOn s).1.camOn = true ∧ (cameraOn s).1.initCount = s.initCount + 1 ∧
        (cameraOn s).2 = [CamEvent.sdkInit, CamEvent.sdkConfig]) ∧
    (∀ (s : Cam2State) (acts : List CamAction),
        (s.camOn = true → s.ueyeOK = true) →
        ((runCam s acts).camOn = true → (runCam s acts).ueyeOK = true)) ∧
    (∀ s : Cam2State, (s.camOn = true → s.ueyeOK = true) →
        (cameraOff s).1.camOn = false) := by
  have hguard : ∀ s : Cam2State, ¬(s.ueyeOK = true ∧ s.camOn = true) →
      (s.ueyeOK && s.camOn) = false := by
    intro s h
    cases hu : s.ueyeOK <;> cases hc : s.camOn <;> simp_all
  refine ⟨?_, ?_, ?_, ?_, ?_, ?_, ?_, ?_⟩
  · intro s res h
    unfold getOneImage
    rw [hguard s h]
    rfl
  · intro s res h
    unfold getOneImageV2
    rw [hguard s h]
    rfl
  · intro s h
    unfold printCameraInfo
    rw [hguard s h]
    rfl
  · intro s h
    unfold cameraOff
    rw [hguard s h]
    rfl
  · intro s h
    unfold cameraOn
    rw [h]
    simp
  · intro s h1 h2
    unfold cameraOn
    rw [h1, h2]
    exact ⟨rfl, rfl, rfl⟩
  · intro s acts
    induction acts generalizing s with
    | nil => exact fun h => h
    | cons a as ih =>
        intro h
        exact ih (stepCam a s).1 (stepCam_inv a s h)
  · intro s h
    unfold cameraOff
    by_cases hc : s.camOn = true
    · rw [if_pos (by simp [h hc, hc])]
    · rw [Bool.not_eq_true] at hc
      by_cases hg : (s.ueyeOK && s.camOn) = true
      · rw [hc] at hg
        simp at hg
      · rw [if_neg hg]
        exact hc

/-- App state shared by the concrete camera states of the witness. -/
def camApp : AppState :=
  { pixmap := [], prevPixmap := [], image := [], npImage := NpImg.empty,
    isAllGray := false, cropActive := false, viewTransform := 0 }

/-- Concrete camera state: SDK available, camera off. -/
def camOffState : Cam2State :=
  { app := camApp, ueyeOK := true, camOn := false, initCount := 0 }

/-- Concrete camera state: SDK available, camera on. -/
def camOnState : Cam2State :=
  { app := camApp, ueyeOK := true, camOn := true, initCount := 1 }

/-- Witness for `claim8_camera_guard` at concrete states: a capture with
the camera off is a silent no-op, `cameraOn` turns a camera-off state
on, `cameraOff` turns the on-state off, and the `camOn → ueyeOK`
invariant holds after a concrete run that switches the camera on. -/
theorem claim8_camera_guard_witness :
    getOneImage CaptureRes.fail camOffState = (camOffState, []) ∧
    (cameraOn camOffState).1.camOn = true ∧
    (cameraOff camOnState).1.camOn = false ∧
    (runCam camOffState [CamAction.doCameraOn]).ueyeOK = true :=
  ⟨claim8_camera_guard.1 camOffState CaptureRes.fail (by decide),
   (claim8_camera_guard.2.2.2.2.2.1 camOffState (by decide) (by decide)).1,
   claim8_camera_guard.2.2.2.2.2.2.2 camOnState (by decide),
   claim8_camera_guard.2.2.2.2.2.2.1 camOffState [CamAction.doCameraOn]
     (by decide) (by decide)⟩
